import Mathlib

/-!
Shallow embedding of `src/neuromorphovis/interface/ui/analysis_panel.py`:
the `AnalysisPanel.draw` routine and the two operator handlers
`AnalyzeMorphology.execute` and `ExportAnalysisResults.execute`.

External collaborators (the morphology loader, the analysis routine, the
skeleton-sketch routine, and the filesystem helpers) live outside this file
in the source repository; they are modelled as an oracle record `Externals`
whose fields give each collaborator's outcome.  Each embedded handler is a
total function from the oracle and the session state to the final session
state, a trace of the external calls and report messages it issued (in
order), and the status set it returns to the host.
-/

namespace NMV

/-- Severity tag of a message passed to the host's report mechanism
(Blender's `Operator.report`). -/
inductive Severity
  | ERROR
  | WARNING
  deriving DecidableEq, Repr

/-- The `io` sub-object of the shared configuration `nmv.interface.ui_options`:
the user-chosen output directory (nullable) and the derived analysis
directory path. -/
structure IoOptions where
  output_directory : Option String
  analysis_directory : String
  deriving DecidableEq, Repr

/-- The shared session configuration object `nmv.interface.ui_options`. -/
structure Options where
  io : IoOptions
  deriving DecidableEq, Repr

/-- Session and scene state read or written by this file: the shared
`nmv.interface.ui_morphology` reference (nullable), the shared
`nmv.interface.ui_options` configuration, the scene-level
`MorphologyAnalyzed` flag registered by the panel, and the scene-level
`OutputDirectory` path. `M` is the (opaque) type of a loaded morphology. -/
structure NMVState (M : Type) where
  ui_morphology : Option M
  ui_options : Options
  MorphologyAnalyzed : Bool
  OutputDirectory : String
  deriving DecidableEq, Repr

/-- One observable action performed by a handler: a report message to the
host, or a call into an external collaborator. -/
inductive Event (M : Type)
  | report (severity : Severity) (msg : String)
  | sketch_morphology_skeleton_guide (morphology : Option M) (options : Options)
  | analyze_morphology (morphology : Option M)
  | log (path : String)
  | clean_and_create_directory (path : String)
  | export_analysis_results (morphology : Option M) (directory : String)
  deriving DecidableEq, Repr

/-- Oracle for the external collaborators: what the loader returns and what
it leaves in `ui_morphology`, what the analysis routine returns, how the
sketch routine mutates the options object handed to it, and which paths the
filesystem reports as existing. -/
structure Externals (M : Type) where
  load_result : Option M
  load_ui_morphology : Option M
  analyze_result : Bool
  sketch_mutator : Options → Options
  path_exists : String → Bool

/-- Result of running one operator handler: the session state afterwards,
the ordered trace of events, and the status set returned to the host. -/
structure OpResult (M : Type) where
  state : NMVState M
  trace : List (Event M)
  status : List String
  deriving DecidableEq, Repr

/-- Modelled from the spec: `nmv.consts.Messages.PATH_NOT_SET`, the
user-facing "path not set" message; the `consts` module is not under the
provided sources, only the constant's name is used here. -/
def Messages.PATH_NOT_SET : String := "Output directory is not set"

/-- Modelled from the spec: `nmv.consts.Messages.INVALID_OUTPUT_PATH`, the
user-facing "invalid output path" message; the `consts` module is not under
the provided sources, only the constant's name is used here. -/
def Messages.INVALID_OUTPUT_PATH : String := "Invalid output directory"

/-- How a mutable object is handed to a callee in the host language: by
reference (the callee's mutations hit the shared object) or via
`copy.deepcopy` (the callee mutates a distinct copy). -/
inductive ArgPassing
  | byReference
  | byDeepCopy
  deriving DecidableEq, Repr

/-- `copy.deepcopy` on the options object: a structurally equal but
distinct object. -/
def deepcopy (o : Options) : Options := o

/-- Semantics of calling a routine that mutates its options argument by
`mutator`, given the passing mode: returns the shared object after the call
and the argument object the callee received (before its mutations). -/
def callWithOptions (passing : ArgPassing) (mutator : Options → Options)
    (shared : Options) : Options × Options :=
  match passing with
  | ArgPassing.byReference => (mutator shared, shared)
  | ArgPassing.byDeepCopy => (shared, deepcopy shared)

/-- Embedding of `AnalyzeMorphology.execute` (analysis_panel.py lines
107-138): load the morphology; on a null result report an ERROR and finish;
otherwise sketch the skeleton guide with a deep copy of `ui_options`, store
the analysis routine's boolean into `MorphologyAnalyzed`, warn if it is
false, and finish. -/
def AnalyzeMorphology.execute {M : Type} (ext : Externals M) (s : NMVState M) :
    OpResult M :=
  let loading_result := ext.load_result
  let s1 : NMVState M := { s with ui_morphology := ext.load_ui_morphology }
  match loading_result with
  | none =>
      { state := s1
        trace := [Event.report Severity.ERROR ("Please select a morphology file")]
        status := ["FINISHED"] }
  | some _ =>
      let sketched := callWithOptions ArgPassing.byDeepCopy ext.sketch_mutator s1.ui_options
      let s2 : NMVState M := { s1 with ui_options := sketched.fst }
      let analyzed := ext.analyze_result
      let s3 : NMVState M := { s2 with MorphologyAnalyzed := analyzed }
      { state := s3
        trace :=
          [Event.sketch_morphology_skeleton_guide s1.ui_morphology sketched.snd,
           Event.analyze_morphology s2.ui_morphology] ++
          (if analyzed then []
           else [Event.report Severity.WARNING
                  ("Corrupted morphology and cannot be analysed!")])
        status := ["FINISHED"] }

/-- Embedding of `ExportAnalysisResults.execute` (analysis_panel.py lines
154-184): reject a null `output_directory`, log and reject a non-existent
scene `OutputDirectory`, clean-create the analysis directory when missing,
then export into it. -/
def ExportAnalysisResults.execute {M : Type} (ext : Externals M)
    (s : NMVState M) : OpResult M :=
  match s.ui_options.io.output_directory with
  | none =>
      { state := s
        trace := [Event.report Severity.ERROR Messages.PATH_NOT_SET]
        status := ["FINISHED"] }
  | some _ =>
      if ext.path_exists s.OutputDirectory = false then
        { state := s
          trace := [Event.log s.OutputDirectory,
                    Event.report Severity.ERROR Messages.INVALID_OUTPUT_PATH]
          status := ["FINISHED"] }
      else
        { state := s
          trace :=
            [Event.log s.OutputDirectory] ++
            (if ext.path_exists s.ui_options.io.analysis_directory then []
             else [Event.clean_and_create_directory
                    s.ui_options.io.analysis_directory]) ++
            [Event.export_analysis_results s.ui_morphology
              s.ui_options.io.analysis_directory]
          status := ["FINISHED"] }

/-- One drawing action of the panel: placing an operator button or calling
the external analysis-group renderer. -/
inductive DrawEvent (M : Type)
  | operatorButton (idname : String)
  | add_analysis_groups_to_panel (morphology : Option M)
  deriving DecidableEq, Repr

/-- Result of one `draw` call: the layout's final `enabled` flag (initially
true) and the drawing actions issued, in order. -/
structure DrawResult (M : Type) where
  enabled : Bool
  events : List (DrawEvent M)
  deriving DecidableEq, Repr

/-- Embedding of `AnalysisPanel.draw` (analysis_panel.py lines 62-91): the
analyze button always; when `MorphologyAnalyzed`, the analysis groups
(handed the current `ui_morphology`) and the export button; finally the
layout is disabled when `ui_morphology` is null. -/
def AnalysisPanel.draw {M : Type} (s : NMVState M) : DrawResult M :=
  let events := [DrawEvent.operatorButton ("analyze.morphology")]
  let events := events ++
    (if s.MorphologyAnalyzed then
      [DrawEvent.add_analysis_groups_to_panel s.ui_morphology,
       DrawEvent.operatorButton ("export.analysis_results")]
     else [])
  let enabled := true
  let enabled := if s.ui_morphology.isNone then false else enabled
  { enabled := enabled, events := events }

/-- Whether an event is a message to the host's report mechanism. -/
def Event.isReport {M : Type} : Event M → Bool
  | Event.report _ _ => true
  | _ => false

/-- The report messages in a trace, in order. -/
def reports {M : Type} (t : List (Event M)) : List (Event M) :=
  t.filter Event.isReport

/-- Concrete configuration used by the witness instances. -/
def baseOpts : Options :=
  { io := { output_directory := some ("out"), analysis_directory := "out/analysis" } }

/-- Concrete session state used by the witness instances. -/
def baseState : NMVState Nat :=
  { ui_morphology := some 7
    ui_options := baseOpts
    MorphologyAnalyzed := false
    OutputDirectory := "out" }

/-- Concrete external-collaborator oracle used by the witness instances:
the loader succeeds, analysis succeeds, the sketch routine overwrites its
options argument, every path exists. -/
def baseExt : Externals Nat :=
  { load_result := some 7
    load_ui_morphology := some 7
    analyze_result := true
    sketch_mutator := fun _ =>
      { io := { output_directory := none, analysis_directory := "" } }
    path_exists := fun _ => true }

/-- Oracle for which only the path `out` exists on disk. -/
def outOnlyExt : Externals Nat :=
  { baseExt with path_exists := fun p => p == "out" }

/-- Session state whose `output_directory` option is null. -/
def noOutState : NMVState Nat :=
  { baseState with
      ui_options :=
        { io := { output_directory := none, analysis_directory := "out/analysis" } } }

/-- C1: whenever the morphology loader returns None, the analyze action's
trace is exactly one ERROR report ("Please select a morphology file") — in
particular neither the sketch routine nor the analysis routine is invoked —
the `MorphologyAnalyzed` flag is unchanged, and the returned status is
{FINISHED}. -/
theorem analyze_loader_none {M : Type} (ext : Externals M) (s : NMVState M)
    (h : ext.load_result = none) :
    (AnalyzeMorphology.execute ext s).trace =
      [Event.report Severity.ERROR ("Please select a morphology file")] ∧
    (AnalyzeMorphology.execute ext s).state.MorphologyAnalyzed =
      s.MorphologyAnalyzed ∧
    (AnalyzeMorphology.execute ext s).status = ["FINISHED"] := by
  simp [AnalyzeMorphology.execute, h]

/-- C1 witness: the theorem instantiated at a concrete oracle whose loader
returns None. -/
theorem analyze_loader_none_witness :
    ({ baseExt with load_result := none } : Externals Nat).load_result = none ∧
    ((AnalyzeMorphology.execute { baseExt with load_result := none } baseState).trace =
      [Event.report Severity.ERROR ("Please select a morphology file")] ∧
     (AnalyzeMorphology.execute { baseExt with load_result := none }
        baseState).state.MorphologyAnalyzed = baseState.MorphologyAnalyzed ∧
     (AnalyzeMorphology.execute { baseExt with load_result := none }
        baseState).status = ["FINISHED"]) :=
  ⟨rfl, analyze_loader_none { baseExt with load_result := none } baseState rfl⟩

/-- C2: whenever the loader returns a morphology, the analyze action sets
`MorphologyAnalyzed` to exactly the boolean returned by the analysis
routine, and its trace contains a report — the WARNING "Corrupted
morphology and cannot be analysed!" — precisely when that boolean is false;
when it is true the trace contains no report at all. -/
theorem analyze_loader_some {M : Type} (ext : Externals M) (s : NMVState M)
    (m : M) (h : ext.load_result = some m) :
    (AnalyzeMorphology.execute ext s).state.MorphologyAnalyzed =
      ext.analyze_result ∧
    reports (AnalyzeMorphology.execute ext s).trace =
      (if ext.analyze_result then []
       else [Event.report Severity.WARNING
              ("Corrupted morphology and cannot be analysed!")]) := by
  cases hA : ext.analyze_result <;>
    simp [AnalyzeMorphology.execute, h, hA, reports, Event.isReport]

/-- C2 witness: the theorem instantiated at a concrete oracle whose loader
succeeds and whose analysis routine returns false. -/
theorem analyze_loader_some_witness :
    ({ baseExt with analyze_result := false } : Externals Nat).load_result = some 7 ∧
    ((AnalyzeMorphology.execute { baseExt with analyze_result := false }
        baseState).state.MorphologyAnalyzed =
      ({ baseExt with analyze_result := false } : Externals Nat).analyze_result ∧
     reports (AnalyzeMorphology.execute { baseExt with analyze_result := false }
        baseState).trace =
      (if ({ baseExt with analyze_result := false } : Externals Nat).analyze_result then []
       else [Event.report Severity.WARNING
              ("Corrupted morphology and cannot be analysed!")])) :=
  ⟨rfl, analyze_loader_some { baseExt with analyze_result := false } baseState 7 rfl⟩

/-- C3: the export action stops with exactly one ERROR report, an untouched
state and a FINISHED status in each failure case: a null `output_directory`
gives the PATH_NOT_SET message (before anything else, for every filesystem
oracle — the null check comes first), and a set `output_directory` with a
non-existent scene `OutputDirectory` gives the log followed by the
INVALID_OUTPUT_PATH message; in both cases nothing is created or
exported. -/
theorem export_rejects_bad_paths {M : Type} (ext : Externals M)
    (s : NMVState M)
    (h : s.ui_options.io.output_directory = none ∨
         ext.path_exists s.OutputDirectory = false) :
    (ExportAnalysisResults.execute ext s).trace =
      (if s.ui_options.io.output_directory.isNone then
        [Event.report Severity.ERROR Messages.PATH_NOT_SET]
       else
        [Event.log s.OutputDirectory,
         Event.report Severity.ERROR Messages.INVALID_OUTPUT_PATH]) ∧
    (ExportAnalysisResults.execute ext s).state = s ∧
    (ExportAnalysisResults.execute ext s).status = ["FINISHED"] := by
  cases hod : s.ui_options.io.output_directory with
  | none => simp [ExportAnalysisResults.execute, hod]
  | some d =>
      have hpe : ext.path_exists s.OutputDirectory = false := by
        rcases h with h | h
        · rw [hod] at h; exact absurd h (by simp)
        · exact h
      simp [ExportAnalysisResults.execute, hod, hpe]

/-- C3 witness: the theorem instantiated at a concrete state whose
`output_directory` is null. -/
theorem export_rejects_bad_paths_witness :
    (noOutState.ui_options.io.output_directory = none ∨
      baseExt.path_exists noOutState.OutputDirectory = false) ∧
    ((ExportAnalysisResults.execute baseExt noOutState).trace =
      (if noOutState.ui_options.io.output_directory.isNone then
        [Event.report Severity.ERROR Messages.PATH_NOT_SET]
       else
        [Event.log noOutState.OutputDirectory,
         Event.report Severity.ERROR Messages.INVALID_OUTPUT_PATH]) ∧
     (ExportAnalysisResults.execute baseExt noOutState).state = noOutState ∧
     (ExportAnalysisResults.execute baseExt noOutState).status = ["FINISHED"]) :=
  ⟨Or.inl rfl, export_rejects_bad_paths baseExt noOutState (Or.inl rfl)⟩

/-- C4: when both export preconditions hold, the clean-create call appears
in the trace precisely when the analysis directory does not already exist,
and the trace is the log, then the optional clean-create, then the export
call with the current `ui_morphology` and the analysis directory — so the
creation, when it happens, precedes the export call. -/
theorem export_creates_directory_before_export {M : Type} (ext : Externals M)
    (s : NMVState M) (d : String)
    (h1 : s.ui_options.io.output_directory = some d)
    (h2 : ext.path_exists s.OutputDirectory = true) :
    (Event.clean_and_create_directory s.ui_options.io.analysis_directory ∈
        (ExportAnalysisResults.execute ext s).trace ↔
      ext.path_exists s.ui_options.io.analysis_directory = false) ∧
    (ExportAnalysisResults.execute ext s).trace =
      [Event.log s.OutputDirectory] ++
      (if ext.path_exists s.ui_options.io.analysis_directory then []
       else [Event.clean_and_create_directory
              s.ui_options.io.analysis_directory]) ++
      [Event.export_analysis_results s.ui_morphology
        s.ui_options.io.analysis_directory] := by
  cases hpa : ext.path_exists s.ui_options.io.analysis_directory <;>
    simp [ExportAnalysisResults.execute, h1, h2, hpa]

/-- C4 witness: the theorem instantiated at an oracle for which the output
directory exists but the analysis directory does not. -/
theorem export_creates_directory_before_export_witness :
    baseState.ui_options.io.output_directory = some ("out") ∧
    outOnlyExt.path_exists baseState.OutputDirectory = true ∧
    ((Event.clean_and_create_directory
        baseState.ui_options.io.analysis_directory ∈
        (ExportAnalysisResults.execute outOnlyExt baseState).trace ↔
      outOnlyExt.path_exists baseState.ui_options.io.analysis_directory = false) ∧
     (ExportAnalysisResults.execute outOnlyExt baseState).trace =
      [Event.log baseState.OutputDirectory] ++
      (if outOnlyExt.path_exists baseState.ui_options.io.analysis_directory then []
       else [Event.clean_and_create_directory
              baseState.ui_options.io.analysis_directory]) ++
      [Event.export_analysis_results baseState.ui_morphology
        baseState.ui_options.io.analysis_directory]) :=
  ⟨rfl, by decide,
   export_creates_directory_before_export outOnlyExt baseState "out" rfl (by decide)⟩

/-- C5: the sketch routine receives a deep copy of `ui_options`, so the
shared session `ui_options` object is unchanged after the analyze action,
regardless of how the sketch routine mutates its options argument. -/
theorem analyze_preserves_shared_ui_options {M : Type} (ext : Externals M)
    (s : NMVState M) :
    (AnalyzeMorphology.execute ext s).state.ui_options = s.ui_options := by
  cases h : ext.load_result <;>
    simp [AnalyzeMorphology.execute, h, callWithOptions, deepcopy]

/-- C6: for every state and every outcome of the external collaborators,
both operator handlers return the status set {FINISHED}; both are total
functions of the oracle and the state, so no exception of their own reaches
the host. -/
theorem operators_always_return_finished {M : Type} (ext : Externals M)
    (s : NMVState M) :
    (AnalyzeMorphology.execute ext s).status = ["FINISHED"] ∧
    (ExportAnalysisResults.execute ext s).status = ["FINISHED"] := by
  constructor
  · cases h : ext.load_result <;> simp [AnalyzeMorphology.execute, h]
  · cases hod : s.ui_options.io.output_directory <;>
      cases hpe : ext.path_exists s.OutputDirectory <;>
        simp [ExportAnalysisResults.execute, hod, hpe]

/-- C7: the panel draw routine leaves the layout disabled exactly when
`ui_morphology` is null — disabled for every value of `MorphologyAnalyzed`
when it is null, and never set to disabled when it is not. -/
theorem draw_disabled_iff_morphology_none {M : Type} (s : NMVState M) :
    ((AnalysisPanel.draw s).enabled = false ↔ s.ui_morphology = none) := by
  cases h : s.ui_morphology <;> simp [AnalysisPanel.draw, h]

/-- C8 counterexample: the export action does read `ui_morphology` — with
identical externals, two states that differ only in `ui_morphology` produce
different traces (the export call receives different morphologies) — so the
claim that it "never reads ... MorphologyAnalyzed, ui_morphology, or
ui_options" is false as stated. -/
theorem export_reads_ui_morphology :
    (ExportAnalysisResults.execute baseExt baseState).trace ≠
      (ExportAnalysisResults.execute baseExt
        { baseState with ui_morphology := none }).trace := by
  decide

/-- Session state with a null morphology whose export preconditions hold. -/
def nullMorphState : NMVState Nat := { baseState with ui_morphology := none }

/-- C8 (amended): for every state, the export action never reads
`MorphologyAnalyzed` (the trace is unchanged when only the flag changes)
and never modifies `MorphologyAnalyzed`, `ui_morphology` or `ui_options`
(the whole state is returned untouched); it does read `ui_morphology` and
`ui_options`: whenever its two path preconditions hold it invokes the
export routine with whatever `ui_morphology` currently is — even when that
is None or the flag is false — no guard requiring a prior successful
analysis exists. -/
theorem export_frame_effect {M : Type} (ext : Externals M) (s : NMVState M)
    (b : Bool) :
    (ExportAnalysisResults.execute ext s).state = s ∧
    (ExportAnalysisResults.execute ext
        { s with MorphologyAnalyzed := b }).trace =
      (ExportAnalysisResults.execute ext s).trace ∧
    (s.ui_options.io.output_directory.isSome = true →
      ext.path_exists s.OutputDirectory = true →
      Event.export_analysis_results s.ui_morphology
          s.ui_options.io.analysis_directory ∈
        (ExportAnalysisResults.execute ext s).trace) := by
  refine ⟨?_, ?_, ?_⟩
  · cases hod : s.ui_options.io.output_directory <;>
      cases hpe : ext.path_exists s.OutputDirectory <;>
        simp [ExportAnalysisResults.execute, hod, hpe]
  · cases hod : s.ui_options.io.output_directory <;>
      cases hpe : ext.path_exists s.OutputDirectory <;>
        simp [ExportAnalysisResults.execute, hod, hpe]
  · intro h1 h2
    obtain ⟨d, hd⟩ := Option.isSome_iff_exists.mp h1
    cases hpa : ext.path_exists s.ui_options.io.analysis_directory <;>
      simp [ExportAnalysisResults.execute, hd, h2, hpa]

/-- C8 witness: the amended theorem applied at a state whose
`ui_morphology` is None and whose `MorphologyAnalyzed` is false, with the
inner preconditions discharged there: the state is untouched, the trace
ignores the flag, and the export call still happens and receives the null
morphology. -/
theorem export_frame_effect_witness :
    nullMorphState.ui_options.io.output_directory.isSome = true ∧
    baseExt.path_exists nullMorphState.OutputDirectory = true ∧
    ((ExportAnalysisResults.execute baseExt nullMorphState).state =
      nullMorphState ∧
     (ExportAnalysisResults.execute baseExt
        { nullMorphState with MorphologyAnalyzed := true }).trace =
      (ExportAnalysisResults.execute baseExt nullMorphState).trace ∧
     Event.export_analysis_results nullMorphState.ui_morphology
        nullMorphState.ui_options.io.analysis_directory ∈
      (ExportAnalysisResults.execute baseExt nullMorphState).trace) :=
  ⟨rfl, rfl,
   (export_frame_effect baseExt nullMorphState true).1,
   (export_frame_effect baseExt nullMorphState true).2.1,
   (export_frame_effect baseExt nullMorphState true).2.2 rfl rfl⟩

/-- C9: when `MorphologyAnalyzed` is true and `ui_morphology` is None, the
panel draw routine still calls the external analysis-group renderer,
handing it the null morphology; the null check only disables the layout
afterwards. -/
theorem draw_passes_null_morphology {M : Type} (s : NMVState M)
    (h1 : s.MorphologyAnalyzed = true) (h2 : s.ui_morphology = none) :
    DrawEvent.add_analysis_groups_to_panel (none : Option M) ∈
      (AnalysisPanel.draw s).events ∧
    (AnalysisPanel.draw s).enabled = false := by
  simp [AnalysisPanel.draw, h1, h2]

/-- C9 witness: the theorem instantiated at a concrete analyzed state with
a null morphology. -/
theorem draw_passes_null_morphology_witness :
    ({ baseState with ui_morphology := none, MorphologyAnalyzed := true } :
        NMVState Nat).MorphologyAnalyzed = true ∧
    ({ baseState with ui_morphology := none, MorphologyAnalyzed := true } :
        NMVState Nat).ui_morphology = none ∧
    (DrawEvent.add_analysis_groups_to_panel (none : Option Nat) ∈
      (AnalysisPanel.draw
        ({ baseState with ui_morphology := none, MorphologyAnalyzed := true } :
          NMVState Nat)).events ∧
     (AnalysisPanel.draw
        ({ baseState with ui_morphology := none, MorphologyAnalyzed := true } :
          NMVState Nat)).enabled = false) :=
  ⟨rfl, rfl,
   draw_passes_null_morphology
     { baseState with ui_morphology := none, MorphologyAnalyzed := true } rfl rfl⟩

/-- C10: the path the export action validates (scene `OutputDirectory`) and
the path it creates and exports into (`ui_options.io.analysis_directory`)
are different state locations: when they differ and validation passes while
the analysis directory does not exist, the action still clean-creates and
exports into the unvalidated analysis directory. -/
theorem export_validates_a_different_path {M : Type} (ext : Externals M)
    (s : NMVState M) (d : String)
    (_hne : s.OutputDirectory ≠ s.ui_options.io.analysis_directory)
    (h1 : s.ui_options.io.output_directory = some d)
    (h2 : ext.path_exists s.OutputDirectory = true)
    (h3 : ext.path_exists s.ui_options.io.analysis_directory = false) :
    (ExportAnalysisResults.execute ext s).trace =
      [Event.log s.OutputDirectory,
       Event.clean_and_create_directory s.ui_options.io.analysis_directory,
       Event.export_analysis_results s.ui_morphology
         s.ui_options.io.analysis_directory] ∧
    (ExportAnalysisResults.execute ext s).status = ["FINISHED"] := by
  simp [ExportAnalysisResults.execute, h1, h2, h3]

/-- C10 witness: the theorem instantiated at the oracle for which only the
validated path `out` exists while the analysis directory `out/analysis`
does not. -/
theorem export_validates_a_different_path_witness :
    baseState.OutputDirectory ≠ baseState.ui_options.io.analysis_directory ∧
    ((ExportAnalysisResults.execute outOnlyExt baseState).trace =
      [Event.log baseState.OutputDirectory,
       Event.clean_and_create_directory baseState.ui_options.io.analysis_directory,
       Event.export_analysis_results baseState.ui_morphology
         baseState.ui_options.io.analysis_directory] ∧
     (ExportAnalysisResults.execute outOnlyExt baseState).status = ["FINISHED"]) :=
  ⟨by decide,
   export_validates_a_different_path outOnlyExt baseState "out" (by decide)
     rfl (by decide) (by decide)⟩

end NMV
